import Mathlib

/-!
Verification development for the OrderAhead ordering application
(customer order intake, order status lifecycle, realtime dashboard
propagation, and web-push subscription registry).

The definitions below are shallow embeddings of the JavaScript source:
  * `src/pages/DashboardPage.jsx` — `STATUS_FLOW`, `advanceStatus`, and the
    realtime INSERT/UPDATE channel handlers;
  * `src/pages/MenuPage.jsx` — `cartItems`, `cartTotal`, `submitOrder`;
  * `src/lib/push.js` (bundled in `WelcomePage.jsx`) — `subscribeToPush`;
  * `supabase_schema.sql` — the row shapes and the unique-endpoint
    constraint on `push_subscriptions`.

Modelling conventions: JavaScript strings are lists of code points
(`List Nat`), currency amounts are exact rationals (`ℚ`), timestamps and
row ids are `Nat`.  `Number.prototype.toFixed(2)` followed by `parseFloat`
is modelled as exact round-half-up to 2 decimals on ℚ; since every price
in the store is a `numeric(10,2)` value, no rounding error is introduced
by this idealisation.  Store writes are made explicit: an update statement
becomes a function on a list of rows, and the success or failure of an
insert is an explicit boolean parameter.
-/

namespace OrderAhead

/-- The five order states admitted by the `orders.status` check constraint
in `supabase_schema.sql`. -/
inductive Status where
  | pending
  | preparing
  | ready
  | fulfilled
  | cancelled
deriving DecidableEq

/-- `const STATUS_FLOW = ["pending", "preparing", "ready", "fulfilled"]`
from `DashboardPage.jsx`. -/
def STATUS_FLOW : List Status :=
  [Status.pending, Status.preparing, Status.ready, Status.fulfilled]

/-- JavaScript `Array.prototype.indexOf`: first index of the element, or
`-1` when absent.  (`"cancelled"` is absent from `STATUS_FLOW`, so there
it returns `-1`.) -/
def jsIndexOf : List Status → Status → Int
  | [], _ => -1
  | a :: t, s =>
      if a = s then 0
      else
        let r := jsIndexOf t s
        if r = -1 then -1 else r + 1

/-- JavaScript array indexing `l[i]` with a possibly negative index:
out-of-range access yields `undefined`, modelled as `none`. -/
def jsListGet (l : List Status) (i : Int) : Option Status :=
  if 0 ≤ i then l.get? i.toNat else none

/-- One row of the `orders` table, as read and written by the client.
(`created_at` is never consulted by the code under verification and is
omitted.) -/
structure OrderRow where
  id : Nat
  business_id : Nat
  customer_name : List Nat
  customer_note : Option (List Nat)
  status : Status
  total : ℚ
  fulfilled_at : Option Nat
deriving DecidableEq

/-- The object literal passed to `supabase.from("orders").update({...})`
by `advanceStatus`: a new status, and — only when the transition is into
`fulfilled` — a fulfillment timestamp.  `fulfilled_at = none` means the
field is absent from the update (spread of the empty object), so the
stored value is left untouched. -/
structure UpdatePayload where
  status : Status
  fulfilled_at : Option Nat
deriving DecidableEq

/-- `advanceStatus(order)` from `DashboardPage.jsx`, up to the issued
update: `none` means the function returned before issuing any store
update (the early `return` when `currentIdx >= STATUS_FLOW.length - 1`);
`some p` means p is the update payload sent to the store.  `now` is the
value of `new Date()` at the call. -/
def advanceStatus (order : OrderRow) (now : Nat) : Option UpdatePayload :=
  let currentIdx := jsIndexOf STATUS_FLOW order.status
  if currentIdx ≥ (STATUS_FLOW.length : Int) - 1 then
    none
  else
    match jsListGet STATUS_FLOW (currentIdx + 1) with
    | some nextStatus =>
        some { status := nextStatus,
               fulfilled_at :=
                 if nextStatus = Status.fulfilled then some now else none }
    | none => none

/-- Application of an update payload to one stored row: the status column
is overwritten; `fulfilled_at` is overwritten only when the payload
carries it. -/
def applyUpdate (row : OrderRow) (p : UpdatePayload) : OrderRow :=
  { row with
    status := p.status,
    fulfilled_at :=
      match p.fulfilled_at with
      | some t => some t
      | none => row.fulfilled_at }

/-- Sequential effect of one `advanceStatus` call on the order row it was
invoked on (the snapshot equals the current row): either no update was
issued and the row is unchanged, or the payload is applied. -/
def advanceResult (row : OrderRow) (now : Nat) : OrderRow :=
  match advanceStatus row now with
  | none => row
  | some p => applyUpdate row p

/-- The store-level update actually issued by `advanceStatus`:
`.update(payload).eq("id", order.id)` — the row filter mentions ONLY the
order id, with no condition on the row's current status. -/
def storeUpdateById (db : List OrderRow) (targetId : Nat) (p : UpdatePayload) :
    List OrderRow :=
  db.map fun r => if r.id = targetId then applyUpdate r p else r

/-- Transition table of `advanceStatus` written out state by state, the
comparison point for the refinement claim about the transition engine:
forward states step to their successor (`ready` also stamps
`fulfilled_at`), `fulfilled` is left unchanged with no error, and
`cancelled` — whose `indexOf` is `-1` — is sent back to `pending`. -/
def advanceObserved (row : OrderRow) (now : Nat) : OrderRow :=
  match row.status with
  | Status.pending => { row with status := Status.preparing }
  | Status.preparing => { row with status := Status.ready }
  | Status.ready =>
      { row with status := Status.fulfilled, fulfilled_at := some now }
  | Status.fulfilled => row
  | Status.cancelled => { row with status := Status.pending }

theorem advanceResult_eq_observed (row : OrderRow) (now : Nat) :
    advanceResult row now = advanceObserved row now := by
  rcases row with ⟨i, b, n, note, st, tot, fa⟩
  cases st <;> rfl

/-- One row of the `products` table, restricted to the columns consumed by
the order-intake path of `MenuPage.jsx`. -/
structure Product where
  id : Nat
  business_id : Nat
  name : List Nat
  price : ℚ
  available : Bool
deriving DecidableEq

/-- One row of the `order_items` table: the snapshot of a product taken at
order time. -/
structure ItemRow where
  order_id : Nat
  product_id : Nat
  name : List Nat
  price : ℚ
  quantity : Nat
deriving DecidableEq

/-- Whitespace recognised by JavaScript `String.prototype.trim`, on code
points: TAB, LF, VT, FF, CR, SPACE (the remaining Unicode space code
points are immaterial to the claims and handled identically). -/
def isJsSpace (c : Nat) : Bool :=
  c == 9 || c == 10 || c == 11 || c == 12 || c == 13 || c == 32

/-- JavaScript `String.prototype.trim`: strip leading and trailing
whitespace. -/
def jsTrim (s : List Nat) : List Nat :=
  ((s.dropWhile isJsSpace).reverse.dropWhile isJsSpace).reverse

/-- `const cartItems = products.filter(p => cart[p.id])` from
`MenuPage.jsx`; the cart maps a product id to its quantity, and a zero
quantity is falsy (absent from the cart object). -/
def cartItems (products : List Product) (cart : Nat → Nat) : List Product :=
  products.filter fun p => cart p.id ≠ 0

/-- `const cartTotal = cartItems.reduce((s, p) => s + p.price * cart[p.id], 0)`
from `MenuPage.jsx`. -/
def cartTotal (products : List Product) (cart : Nat → Nat) : ℚ :=
  (cartItems products cart).foldl (fun s p => s + p.price * (cart p.id : ℚ)) 0

/-- `parseFloat(x.toFixed(2))`: round to 2 decimal places (half up), as an
exact operation on ℚ. -/
def toFixed2 (x : ℚ) : ℚ :=
  (Rat.floor (x * 100 + 1 / 2) : ℚ) / 100

/-- Observable outcome of one `submitOrder()` call in `MenuPage.jsx`,
together with what reached the store:
  * `validationError` — one of the two early returns fired (blank
    customer name, or empty cart); nothing was inserted and no success
    was shown;
  * `orderInsertFailed` — the `orders` insert returned an error, which
    was thrown and caught, so the customer saw the failure alert and no
    row of either table was committed;
  * `itemsInsertFailed o` — the order row `o` was committed but the
    `order_items` insert returned an error; the error was thrown and
    caught, so the customer saw the failure alert and `setConfirmed(true)`
    was never reached;
  * `confirmedSuccess o items` — both inserts succeeded and the
    confirmation overlay was shown. -/
inductive SubmitOutcome where
  | validationError
  | orderInsertFailed
  | itemsInsertFailed (order : OrderRow)
  | confirmedSuccess (order : OrderRow) (items : List ItemRow)
deriving DecidableEq

/-- `submitOrder()` from `MenuPage.jsx`.  The store's verdict on each of
the two inserts is passed in as `orderInsertOk` / `itemsInsertOk`, and
`newOrderId` is the id the store assigns to the new order row. -/
def submitOrder (businessId : Nat) (name note : List Nat)
    (products : List Product) (cart : Nat → Nat)
    (newOrderId : Nat) (orderInsertOk itemsInsertOk : Bool) : SubmitOutcome :=
  if jsTrim name = [] then SubmitOutcome.validationError
  else if cartItems products cart = [] then SubmitOutcome.validationError
  else
    let order : OrderRow :=
      { id := newOrderId
        business_id := businessId
        customer_name := jsTrim name
        customer_note := if jsTrim note = [] then none else some (jsTrim note)
        status := Status.pending
        total := toFixed2 (cartTotal products cart)
        fulfilled_at := none }
    if orderInsertOk = false then SubmitOutcome.orderInsertFailed
    else
      let items : List ItemRow :=
        (cartItems products cart).map fun p =>
          { order_id := newOrderId
            product_id := p.id
            name := p.name
            price := p.price
            quantity := cart p.id }
      if itemsInsertOk = false then SubmitOutcome.itemsInsertFailed order
      else SubmitOutcome.confirmedSuccess order items

/-- The `orders` rows committed by a `submitOrder` call (the order row
survives when the order insert succeeded, even if the item insert then
failed — the degraded state the spec allows). -/
def insertedOrderRows : SubmitOutcome → List OrderRow
  | SubmitOutcome.validationError => []
  | SubmitOutcome.orderInsertFailed => []
  | SubmitOutcome.itemsInsertFailed o => [o]
  | SubmitOutcome.confirmedSuccess o _ => [o]

/-- The `order_items` rows committed by a `submitOrder` call. -/
def insertedItemRows : SubmitOutcome → List ItemRow
  | SubmitOutcome.confirmedSuccess _ items => items
  | _ => []

/-- Order rows reachable in the application: created by `submitOrder`
(either outcome that commits the row), then mutated only by sequential
`advanceStatus` calls. -/
inductive ReachableOrder : OrderRow → Prop where
  | created (businessId : Nat) (name note : List Nat)
      (products : List Product) (cart : Nat → Nat)
      (newOrderId : Nat) (ok1 ok2 : Bool) (o : OrderRow)
      (h : o ∈ insertedOrderRows
        (submitOrder businessId name note products cart newOrderId ok1 ok2)) :
      ReachableOrder o
  | advanced (o : OrderRow) (now : Nat) (h : ReachableOrder o) :
      ReachableOrder (advanceResult o now)

/-- An order as held in the dashboard's `orders` React state: the row
columns plus the joined `order_items`. -/
structure DashOrder where
  id : Nat
  business_id : Nat
  customer_name : List Nat
  customer_note : Option (List Nat)
  status : Status
  total : ℚ
  fulfilled_at : Option Nat
  order_items : List ItemRow
deriving DecidableEq

/-- The realtime INSERT handler in `DashboardPage.jsx`: after re-fetching
the full order (with items) by id, it runs
`setOrders(prev => [data, ...prev])` — an unconditional prepend. -/
def handleInsert (data : DashOrder) (prev : List DashOrder) : List DashOrder :=
  data :: prev

/-- The spread merge `{ ...o, ...payload.new }` in the UPDATE handler: all
row columns come from the event payload, while `order_items` — absent
from the payload — is kept from the state entry. -/
def mergeSpread (o : DashOrder) (n : OrderRow) : DashOrder :=
  { id := n.id
    business_id := n.business_id
    customer_name := n.customer_name
    customer_note := n.customer_note
    status := n.status
    total := n.total
    fulfilled_at := n.fulfilled_at
    order_items := o.order_items }

/-- The realtime UPDATE handler in `DashboardPage.jsx`:
`setOrders(prev => prev.map(o => o.id === payload.new.id ? { ...o, ...payload.new } : o))`. -/
def handleUpdate (payloadNew : OrderRow) (prev : List DashOrder) :
    List DashOrder :=
  prev.map fun o => if o.id = payloadNew.id then mergeSpread o payloadNew else o

/-- Kind of a `postgres_changes` event on the `orders` table. -/
inductive EventKind where
  | insert
  | update
deriving DecidableEq

/-- One realtime change event: its kind and the new row. -/
structure OrderEvent where
  kind : EventKind
  row : OrderRow
deriving DecidableEq

/-- The server-side row filter both channel listeners install:
`filter: business_id=eq.{business.id}`. -/
def channelFilter (bizId : Nat) (e : OrderEvent) : Bool :=
  e.row.business_id == bizId

/-- Fan-out of a stream of committed order events to one dashboard
session subscribed for `bizId`: the realtime service delivers exactly the
events whose row passes the installed server-side filter. -/
def deliveredEvents (bizId : Nat) (events : List OrderEvent) :
    List OrderEvent :=
  events.filter (channelFilter bizId)

/-- One row of the `push_subscriptions` table.  The endpoint URL and the
two opaque key strings are modelled as opaque identifiers. -/
structure PushSub where
  business_id : Nat
  endpoint : Nat
  p256dh : Nat
  auth : Nat
deriving DecidableEq

/-- `supabase.from("push_subscriptions").upsert(row, { onConflict: "endpoint" })`
from `push.js`, against a table whose `endpoint` column is `unique`
(`supabase_schema.sql`): if a row with the endpoint exists it is
overwritten with the new values, otherwise the row is appended. -/
def upsertPushSub (db : List PushSub) (row : PushSub) : List PushSub :=
  if db.any (fun r => r.endpoint == row.endpoint) then
    db.map fun r => if r.endpoint == row.endpoint then row else r
  else
    db ++ [row]

/-- Browser notification permission states. -/
inductive PermissionState where
  | granted
  | denied
  | defaultState
deriving DecidableEq

/-- The browser-side subscription object returned by
`registration.pushManager.subscribe(...)`, after `toJSON()`. -/
structure BrowserSubscription where
  endpoint : Nat
  p256dh : Nat
  auth : Nat
deriving DecidableEq

/-- The browser environment a `subscribeToPush` call runs in.  A `none`
in an `Option` field means the corresponding awaited promise rejected
(which the source's `try`/`catch` turns into a `false` return). -/
structure PushEnv where
  serviceWorkerInNav : Bool
  pushManagerInWindow : Bool
  swReadyOk : Bool
  requestPermissionResult : Option PermissionState
  subscribeResult : Option BrowserSubscription
deriving DecidableEq

/-- `subscribeToPush(businessId)` from `push.js`: the returned boolean,
paired with the `push_subscriptions` row handed to the store's upsert
(`none` when the function returned without writing). -/
def subscribeToPush (env : PushEnv) (businessId : Nat) :
    Bool × Option PushSub :=
  if !(env.serviceWorkerInNav && env.pushManagerInWindow) then (false, none)
  else if !env.swReadyOk then (false, none)
  else
    match env.requestPermissionResult with
    | none => (false, none)
    | some p =>
        if p ≠ PermissionState.granted then (false, none)
        else
          match env.subscribeResult with
          | none => (false, none)
          | some sub =>
              (true,
               some { business_id := businessId
                      endpoint := sub.endpoint
                      p256dh := sub.p256dh
                      auth := sub.auth })

/-! Concrete fixtures, used by witnesses and counterexamples.  The cart
`{Latte ×2 @ $4.50, Muffin ×1 @ $3.00}` for customer "Jamie" is the
spec's own end-to-end scenario; names are lists of code points. -/

/-- The code points of "Jamie". -/
def jamieName : List Nat := [74, 97, 109, 105, 101]

/-- Product fixture: a latte at $4.50. -/
def latteProduct : Product :=
  { id := 1, business_id := 7, name := [76], price := 9 / 2, available := true }

/-- Product fixture: a muffin at $3.00. -/
def muffinProduct : Product :=
  { id := 2, business_id := 7, name := [77], price := 3, available := true }

/-- The menu for the scenario. -/
def jamieProducts : List Product := [latteProduct, muffinProduct]

/-- The cart: two lattes, one muffin. -/
def jamieCart : Nat → Nat := fun i => if i = 1 then 2 else if i = 2 then 1 else 0

/-- The order row `submitOrder` commits for the scenario (its total,
`toFixed2` of $4.50 × 2 + $3.00 × 1, is $12.00). -/
def jamieOrder : OrderRow :=
  { id := 100, business_id := 7, customer_name := jamieName,
    customer_note := none, status := Status.pending,
    total := toFixed2 (cartTotal jamieProducts jamieCart),
    fulfilled_at := none }

/-- The line-item rows `submitOrder` commits for the scenario. -/
def jamieItems : List ItemRow :=
  [{ order_id := 100, product_id := 1, name := [76], price := 9 / 2,
     quantity := 2 },
   { order_id := 100, product_id := 2, name := [77], price := 3,
     quantity := 1 }]

/-- The scenario order after three `advanceStatus` calls (at times 5, 6
and 7): fulfilled, with `fulfilled_at = 7`. -/
def jamieFulfilled : OrderRow :=
  advanceResult (advanceResult (advanceResult jamieOrder 5) 6) 7

/-- A stored order in the `cancelled` state. -/
def cancelledRow : OrderRow :=
  { id := 11, business_id := 1, customer_name := [], customer_note := none,
    status := Status.cancelled, total := 0, fulfilled_at := none }

/-- A stale dashboard snapshot of order 5, still showing `ready`. -/
def staleReadySnapshot : OrderRow :=
  { id := 5, business_id := 1, customer_name := [], customer_note := none,
    status := Status.ready, total := 0, fulfilled_at := none }

/-- The stored row of order 5 at the time the stale update lands: already
fulfilled at time 10. -/
def fulfilledStoredRow : OrderRow :=
  { id := 5, business_id := 1, customer_name := [], customer_note := none,
    status := Status.fulfilled, total := 0, fulfilled_at := some 10 }

/-- A stored order in the `preparing` state. -/
def preparingRow : OrderRow :=
  { id := 6, business_id := 1, customer_name := [], customer_note := none,
    status := Status.preparing, total := 8, fulfilled_at := none }

/-- A whitespace-only customer name (space, tab). -/
def blankName : List Nat := [32, 9]

/-- A dashboard entry, for the duplicated-insert counterexample. -/
def dupDash : DashOrder :=
  { id := 3, business_id := 1, customer_name := [], customer_note := none,
    status := Status.pending, total := 0, fulfilled_at := none,
    order_items := [] }

/-- An insert event for an order of business 1. -/
def eventBizOne : OrderEvent :=
  { kind := EventKind.insert,
    row := { id := 21, business_id := 1, customer_name := [],
             customer_note := none, status := Status.pending, total := 5,
             fulfilled_at := none } }

/-- An insert event for an order of business 2. -/
def eventBizTwo : OrderEvent :=
  { kind := EventKind.insert,
    row := { id := 22, business_id := 2, customer_name := [],
             customer_note := none, status := Status.pending, total := 6,
             fulfilled_at := none } }

/-- An existing registry row for another device. -/
def otherDeviceSub : PushSub :=
  { business_id := 1, endpoint := 50, p256dh := 100, auth := 200 }

/-- First registration of endpoint 60, for business 1. -/
def firstRegistration : PushSub :=
  { business_id := 1, endpoint := 60, p256dh := 101, auth := 201 }

/-- Second registration of the same endpoint 60: new keys, and a
different business. -/
def secondRegistration : PushSub :=
  { business_id := 2, endpoint := 60, p256dh := 102, auth := 202 }

/-- An environment with no push support. -/
def envNoPush : PushEnv :=
  { serviceWorkerInNav := false, pushManagerInWindow := false,
    swReadyOk := false, requestPermissionResult := none,
    subscribeResult := none }

/-- The registry row a successful `subscribeToPush` call for business 3
writes in the all-ok environment. -/
def expectedWrittenSub : PushSub :=
  { business_id := 3, endpoint := 60, p256dh := 101, auth := 201 }

/-- An environment where everything succeeds. -/
def envAllOk : PushEnv :=
  { serviceWorkerInNav := true, pushManagerInWindow := true,
    swReadyOk := true,
    requestPermissionResult := some PermissionState.granted,
    subscribeResult := some { endpoint := 60, p256dh := 101, auth := 201 } }

/-! Shared helper lemmas. -/

theorem foldl_price_sum (cart : Nat → Nat) (l : List Product) (s : ℚ) :
    l.foldl (fun a p => a + p.price * (cart p.id : ℚ)) s =
      s + (l.map fun p => p.price * (cart p.id : ℚ)).sum := by
  induction l generalizing s with
  | nil => simp
  | cons a t ih => simp [List.foldl_cons, ih, add_assoc]

theorem dropWhile_all (p : Nat → Bool) :
    ∀ s : List Nat, (∀ c ∈ s, p c = true) → s.dropWhile p = []
  | [], _ => rfl
  | a :: t, h => by
      have ha : p a = true := h a (by simp)
      rw [List.dropWhile_cons, if_pos ha]
      exact dropWhile_all p t fun c hc => h c (by simp [hc])

theorem jsTrim_eq_nil_of_all_space (s : List Nat)
    (h : ∀ c ∈ s, isJsSpace c = true) : jsTrim s = [] := by
  unfold jsTrim
  rw [dropWhile_all _ _ h]
  rfl

theorem advanceStatus_preparing (row : OrderRow) (now : Nat)
    (h : row.status = Status.preparing) :
    advanceStatus row now =
      some { status := Status.ready, fulfilled_at := none } := by
  rcases row with ⟨i, b, n, note, st, tot, fa⟩
  simp only at h
  subst h
  rfl

theorem submitOrder_created_row (businessId : Nat) (name note : List Nat)
    (products : List Product) (cart : Nat → Nat) (newOrderId : Nat)
    (ok1 ok2 : Bool) (o : OrderRow)
    (h : o ∈ insertedOrderRows
      (submitOrder businessId name note products cart newOrderId ok1 ok2)) :
    o.status = Status.pending ∧ o.fulfilled_at = none := by
  unfold submitOrder at h
  split_ifs at h <;> simp [insertedOrderRows] at h <;> (subst h; exact ⟨rfl, rfl⟩)

theorem reachable_fulfilled_iff (o : OrderRow) (h : ReachableOrder o) :
    o.fulfilled_at.isSome = true ↔ o.status = Status.fulfilled := by
  induction h with
  | created businessId name note products cart newOrderId ok1 ok2 o h =>
      obtain ⟨hs, hf⟩ := submitOrder_created_row businessId name note
        products cart newOrderId ok1 ok2 o h
      rw [hs, hf]
      simp
  | advanced o now h ih =>
      rw [advanceResult_eq_observed]
      unfold advanceObserved
      rcases o with ⟨i, b, n, note, st, tot, fa⟩
      cases st <;> simp_all

theorem cartTotal_eq_sum (products : List Product) (cart : Nat → Nat) :
    cartTotal products cart =
      ((cartItems products cart).map fun p => p.price * (cart p.id : ℚ)).sum := by
  simp only [cartTotal]
  rw [foldl_price_sum, zero_add]

/-! Claim theorems. -/

/-- Claim C1 counterexample: for an order whose status is `cancelled`,
`advanceStatus` does not fail with an InvalidTransitionError and does not
leave the row unchanged — `indexOf` returns `-1`, so it issues an update
that moves the order to `pending`. -/
theorem claim1_counterexample :
    cancelledRow.status = Status.cancelled ∧
    advanceStatus cancelledRow 7 =
      some { status := Status.pending, fulfilled_at := none } ∧
    (advanceResult cancelledRow 7).status = Status.pending := by
  decide

/-- Claim C1 (amended): from each of `pending`, `preparing`, `ready` the
advance operation moves the order to the unique successor in the chain
(stamping `fulfilled_at` on the transition into `fulfilled`); from
`fulfilled` it returns without issuing any update, leaving the row
unchanged but raising no InvalidTransitionError; from `cancelled` it
issues an update that moves the order to `pending`. -/
theorem claim1_advance_transition_table (row : OrderRow) (now : Nat) :
    advanceResult row now = advanceObserved row now :=
  advanceResult_eq_observed row now

/-- Claim C2 counterexample: the store update issued by `advanceStatus`
is not conditioned on the order's current status.  An update computed
from a stale `ready` snapshot of order 5 is applied to the stored row
even though that row is already `fulfilled`, overwriting the previously
set fulfillment timestamp 10 with 20. -/
theorem claim2_counterexample :
    staleReadySnapshot.id = fulfilledStoredRow.id ∧
    staleReadySnapshot.status = Status.ready ∧
    fulfilledStoredRow.status = Status.fulfilled ∧
    fulfilledStoredRow.fulfilled_at = some 10 ∧
    advanceStatus staleReadySnapshot 20 =
      some { status := Status.fulfilled, fulfilled_at := some 20 } ∧
    storeUpdateById [fulfilledStoredRow] 5
        { status := Status.fulfilled, fulfilled_at := some 20 } =
      [{ fulfilledStoredRow with fulfilled_at := some 20 }] := by
  decide

/-- Claim C2 (amended): the update is filtered only by order id, with no
compare-and-set on the current status, and no ConflictError exists; still,
when two advance calls race from the same `preparing` snapshot, both
compute the payload `ready` and applying both leaves the order in `ready`
with `fulfilled_at` untouched — in that particular race no state is
skipped and the fulfillment timestamp is not set. -/
theorem claim2_race_from_preparing (row : OrderRow) (n1 n2 : Nat)
    (h : row.status = Status.preparing)
    (p1 p2 : UpdatePayload)
    (h1 : advanceStatus row n1 = some p1)
    (h2 : advanceStatus row n2 = some p2) :
    (applyUpdate (applyUpdate row p1) p2).status = Status.ready ∧
    (applyUpdate (applyUpdate row p1) p2).fulfilled_at = row.fulfilled_at := by
  rw [advanceStatus_preparing row n1 h] at h1
  rw [advanceStatus_preparing row n2 h] at h2
  injection h1 with h1'
  injection h2 with h2'
  subst h1'
  subst h2'
  exact ⟨rfl, rfl⟩

/-- Witness for the amended C2 theorem at a concrete `preparing` row. -/
theorem claim2_witness :
    (applyUpdate (applyUpdate preparingRow
        { status := Status.ready, fulfilled_at := none })
        { status := Status.ready, fulfilled_at := none }).status =
      Status.ready ∧
    (applyUpdate (applyUpdate preparingRow
        { status := Status.ready, fulfilled_at := none })
        { status := Status.ready, fulfilled_at := none }).fulfilled_at =
      preparingRow.fulfilled_at :=
  claim2_race_from_preparing preparingRow 3 4 (by decide)
    { status := Status.ready, fulfilled_at := none }
    { status := Status.ready, fulfilled_at := none }
    (by decide) (by decide)

/-- Claim C3: whenever order intake reports success, the stored order's
total equals the sum over the committed line items of price × quantity,
rounded to 2 decimal places. -/
theorem claim3_total_eq_rounded_sum (businessId : Nat) (name note : List Nat)
    (products : List Product) (cart : Nat → Nat) (newOrderId : Nat)
    (ok1 ok2 : Bool) (o : OrderRow) (items : List ItemRow)
    (h : submitOrder businessId name note products cart newOrderId ok1 ok2 =
      SubmitOutcome.confirmedSuccess o items) :
    o.total =
      toFixed2 ((items.map fun it => it.price * (it.quantity : ℚ)).sum) := by
  unfold submitOrder at h
  split_ifs at h <;> cases h <;>
    · show toFixed2 (cartTotal products cart) = _
      rw [cartTotal_eq_sum, List.map_map]
      rfl

/-- Witness for C3 on the spec's own scenario: cart
`{Latte ×2 @ $4.50, Muffin ×1 @ $3.00}`, stored total 12.00. -/
theorem claim3_witness :
    jamieOrder.total =
      toFixed2 ((jamieItems.map fun it => it.price * (it.quantity : ℚ)).sum) :=
  claim3_total_eq_rounded_sum 7 jamieName [] jamieProducts jamieCart 100
    true true jamieOrder jamieItems rfl

/-- Claim C4: order intake creates orders as `pending` with
`fulfilled_at` unset; on every order reachable by intake followed by
sequential advance calls, `fulfilled_at` is set iff the status is
`fulfilled`; advance stamps `fulfilled_at` with the current time exactly
on the transition out of `ready` into `fulfilled`; and once
`fulfilled_at` is set, a later advance call leaves the row (hence the
timestamp) unchanged. -/
theorem claim4_fulfilled_at_invariant :
    (∀ (businessId : Nat) (name note : List Nat) (products : List Product)
        (cart : Nat → Nat) (newOrderId : Nat) (ok1 ok2 : Bool)
        (o : OrderRow) (items : List ItemRow),
        submitOrder businessId name note products cart newOrderId ok1 ok2 =
          SubmitOutcome.confirmedSuccess o items →
        o.status = Status.pending ∧ o.fulfilled_at = none) ∧
    (∀ o : OrderRow, ReachableOrder o →
        (o.fulfilled_at.isSome = true ↔ o.status = Status.fulfilled)) ∧
    (∀ (o : OrderRow) (now : Nat), o.status = Status.ready →
        (advanceResult o now).status = Status.fulfilled ∧
        (advanceResult o now).fulfilled_at = some now) ∧
    (∀ (o : OrderRow) (t now : Nat), ReachableOrder o →
        o.fulfilled_at = some t → advanceResult o now = o) := by
  refine ⟨?_, reachable_fulfilled_iff, ?_, ?_⟩
  · intro businessId name note products cart newOrderId ok1 ok2 o items h
    exact submitOrder_created_row businessId name note products cart
      newOrderId ok1 ok2 o (by rw [h]; exact List.mem_singleton_self o)
  · intro o now h
    rw [advanceResult_eq_observed]
    rcases o with ⟨i, b, n, note, st, tot, fa⟩
    simp only at h
    subst h
    exact ⟨rfl, rfl⟩
  · intro o t now hr hf
    have hst : o.status = Status.fulfilled :=
      (reachable_fulfilled_iff o hr).mp (by rw [hf]; rfl)
    rw [advanceResult_eq_observed]
    rcases o with ⟨i, b, n, note, st, tot, fa⟩
    simp only at hst
    subst hst
    rfl

/-- Witness for C4 on the scenario order: created pending and unstamped;
the invariant holds on it; advancing the `ready` stage stamps the
timestamp; a fourth advance on the fulfilled order changes nothing. -/
theorem claim4_witness :
    (jamieOrder.status = Status.pending ∧ jamieOrder.fulfilled_at = none) ∧
    (jamieOrder.fulfilled_at.isSome = true ↔
      jamieOrder.status = Status.fulfilled) ∧
    ((advanceResult (advanceResult (advanceResult jamieOrder 5) 6) 7).status =
        Status.fulfilled ∧
      (advanceResult (advanceResult (advanceResult jamieOrder 5) 6)
          7).fulfilled_at = some 7) ∧
    advanceResult jamieFulfilled 8 = jamieFulfilled := by
  have hreach : ReachableOrder jamieOrder :=
    ReachableOrder.created 7 jamieName [] jamieProducts jamieCart 100 true
      true jamieOrder (List.mem_singleton_self jamieOrder)
  have hreachF : ReachableOrder jamieFulfilled :=
    ReachableOrder.advanced _ 7 (ReachableOrder.advanced _ 6
      (ReachableOrder.advanced _ 5 hreach))
  exact ⟨claim4_fulfilled_at_invariant.1 7 jamieName [] jamieProducts
      jamieCart 100 true true jamieOrder jamieItems rfl,
    claim4_fulfilled_at_invariant.2.1 jamieOrder hreach,
    claim4_fulfilled_at_invariant.2.2.1
      (advanceResult (advanceResult jamieOrder 5) 6) 7 rfl,
    claim4_fulfilled_at_invariant.2.2.2 jamieFulfilled 7 8 hreachF rfl⟩

/-- Claim C5: an intake call with a whitespace-only (or empty) customer
name, or an empty cart, fails with the validation early-return and
commits no order row and no line-item row. -/
theorem claim5_validation_rejects (businessId : Nat) (name note : List Nat)
    (products : List Product) (cart : Nat → Nat) (newOrderId : Nat)
    (ok1 ok2 : Bool)
    (h : (∀ c ∈ name, isJsSpace c = true) ∨ cartItems products cart = []) :
    submitOrder businessId name note products cart newOrderId ok1 ok2 =
      SubmitOutcome.validationError ∧
    insertedOrderRows
      (submitOrder businessId name note products cart newOrderId ok1 ok2) =
      [] ∧
    insertedItemRows
      (submitOrder businessId name note products cart newOrderId ok1 ok2) =
      [] := by
  have hmain : submitOrder businessId name note products cart newOrderId
      ok1 ok2 = SubmitOutcome.validationError := by
    unfold submitOrder
    rcases h with h | h
    · rw [if_pos (jsTrim_eq_nil_of_all_space name h)]
    · by_cases hn : jsTrim name = []
      · rw [if_pos hn]
      · rw [if_neg hn, if_pos h]
  exact ⟨hmain, by rw [hmain]; rfl, by rw [hmain]; rfl⟩

/-- Witness for C5 at a whitespace-only name (space and tab) with a
non-empty cart. -/
theorem claim5_witness :
    submitOrder 7 blankName [] jamieProducts jamieCart 100 true true =
      SubmitOutcome.validationError ∧
    insertedOrderRows
      (submitOrder 7 blankName [] jamieProducts jamieCart 100 true true) =
      [] ∧
    insertedItemRows
      (submitOrder 7 blankName [] jamieProducts jamieCart 100 true true) =
      [] :=
  claim5_validation_rejects 7 blankName [] jamieProducts jamieCart 100 true
    true (Or.inl (by decide))

/-- Claim C6: intake never reports success without confirmed persistence:
a `confirmedSuccess` outcome forces both store inserts to have succeeded;
if the order insert fails the surfaced outcome is the order-insert
failure; and if the order insert succeeds but the line-item insert fails,
the surfaced outcome is the explicit items-insert failure carrying the
partially committed order — never a success confirmation — with zero
line-item rows committed. -/
theorem claim6_no_silent_success (businessId : Nat) (name note : List Nat)
    (products : List Product) (cart : Nat → Nat) (newOrderId : Nat)
    (ok1 ok2 : Bool) :
    (∀ (o : OrderRow) (items : List ItemRow),
        submitOrder businessId name note products cart newOrderId ok1 ok2 =
          SubmitOutcome.confirmedSuccess o items →
        ok1 = true ∧ ok2 = true) ∧
    (jsTrim name ≠ [] → cartItems products cart ≠ [] → ok1 = false →
        submitOrder businessId name note products cart newOrderId ok1 ok2 =
          SubmitOutcome.orderInsertFailed) ∧
    (jsTrim name ≠ [] → cartItems products cart ≠ [] → ok1 = true →
        ok2 = false →
        ∃ o : OrderRow,
          submitOrder businessId name note products cart newOrderId ok1
              ok2 = SubmitOutcome.itemsInsertFailed o ∧
          insertedItemRows (submitOrder businessId name note products cart
            newOrderId ok1 ok2) = []) := by
  refine ⟨?_, ?_, ?_⟩
  · intro o items h
    unfold submitOrder at h
    split_ifs at h <;> cases h <;> constructor <;> simp_all
  · intro hn hc hok1
    subst hok1
    unfold submitOrder
    rw [if_neg hn, if_neg hc]
    rfl
  · intro hn hc hok1 hok2
    subst hok1
    subst hok2
    have hs : submitOrder businessId name note products cart newOrderId
        true false =
        SubmitOutcome.itemsInsertFailed
          { id := newOrderId, business_id := businessId,
            customer_name := jsTrim name,
            customer_note :=
              if jsTrim note = [] then none else some (jsTrim note),
            status := Status.pending,
            total := toFixed2 (cartTotal products cart),
            fulfilled_at := none } := by
      unfold submitOrder
      rw [if_neg hn, if_neg hc]
      rfl
    exact ⟨_, hs, by rw [hs]; rfl⟩

/-- Witness for C6: on the scenario inputs, a success outcome implies
both inserts succeeded; a failed order insert surfaces as
`orderInsertFailed`; a failed item insert surfaces as
`itemsInsertFailed` with no committed line items. -/
theorem claim6_witness :
    (true = true ∧ true = true) ∧
    submitOrder 7 jamieName [] jamieProducts jamieCart 100 false true =
      SubmitOutcome.orderInsertFailed ∧
    (∃ o : OrderRow,
        submitOrder 7 jamieName [] jamieProducts jamieCart 100 true false =
          SubmitOutcome.itemsInsertFailed o ∧
        insertedItemRows
          (submitOrder 7 jamieName [] jamieProducts jamieCart 100 true
            false) = []) :=
  ⟨(claim6_no_silent_success 7 jamieName [] jamieProducts jamieCart 100
      true true).1 jamieOrder jamieItems rfl,
    (claim6_no_silent_success 7 jamieName [] jamieProducts jamieCart 100
      false true).2.1 (by decide) (by decide) rfl,
    (claim6_no_silent_success 7 jamieName [] jamieProducts jamieCart 100
      true false).2.2 (by decide) (by decide) rfl rfl⟩

theorem updateEntry_idem (n : OrderRow) (o : DashOrder) :
    (if (if o.id = n.id then mergeSpread o n else o).id = n.id then
      mergeSpread (if o.id = n.id then mergeSpread o n else o) n
    else if o.id = n.id then mergeSpread o n else o) =
      (if o.id = n.id then mergeSpread o n else o) := by
  by_cases h : o.id = n.id
  · simp [h, mergeSpread]
  · simp [h]

theorem updateEntry_id (n : OrderRow) (o : DashOrder) :
    (if o.id = n.id then mergeSpread o n else o).id = o.id := by
  by_cases h : o.id = n.id
  · simp [h, mergeSpread]
  · simp [h]

/-- Claim C7 counterexample: the dashboard applies an INSERT event by
prepending, so applying the same insert event twice leaves two entries
with the same order id — not the state of applying it once. -/
theorem claim7_counterexample :
    handleInsert dupDash (handleInsert dupDash []) = [dupDash, dupDash] ∧
    ((handleInsert dupDash (handleInsert dupDash [])).filter
        (fun o => o.id == dupDash.id)).length = 2 := by
  exact ⟨rfl, rfl⟩

/-- Claim C7 (amended): the UPDATE handler is an idempotent per-id merge
that preserves the list of order ids (so it never duplicates an entry),
but the INSERT handler is an unconditional prepend of the fetched row —
append-only, not an upsert keyed by order id. -/
theorem claim7_update_idempotent_insert_append (payloadNew : OrderRow)
    (d : DashOrder) (prev : List DashOrder) :
    handleUpdate payloadNew (handleUpdate payloadNew prev) =
      handleUpdate payloadNew prev ∧
    (handleUpdate payloadNew prev).map DashOrder.id =
      prev.map DashOrder.id ∧
    handleInsert d prev = d :: prev := by
  refine ⟨?_, ?_, rfl⟩
  · simp only [handleUpdate, List.map_map]
    apply List.map_congr_left
    intro o _
    exact updateEntry_idem payloadNew o
  · simp only [handleUpdate, List.map_map]
    apply List.map_congr_left
    intro o _
    exact updateEntry_id payloadNew o

/-- Claim C8: the channel listeners are installed with the server-side
filter `business_id=eq.{business.id}`, so every event the realtime
service delivers to a session subscribed for business `bizId` carries an
order row of that business. -/
theorem claim8_scoped_delivery (bizId : Nat) (events : List OrderEvent)
    (e : OrderEvent) (h : e ∈ deliveredEvents bizId events) :
    e.row.business_id = bizId := by
  simp only [deliveredEvents, List.mem_filter, channelFilter] at h
  exact eq_of_beq h.2

/-- Witness for C8: out of one event for business 1 and one for business
2, the event delivered to the business-1 session is the business-1 one. -/
theorem claim8_witness : eventBizOne.row.business_id = 1 :=
  claim8_scoped_delivery 1 [eventBizOne, eventBizTwo] eventBizOne
    (List.mem_singleton_self eventBizOne)

theorem filter_endpoint_nil (e : Nat) :
    ∀ db : List PushSub, (∀ x ∈ db, (x.endpoint == e) = false) →
      db.filter (fun x => x.endpoint == e) = []
  | [], _ => rfl
  | a :: t, h => by
      have ha := h a (by simp)
      rw [List.filter_cons, if_neg (by simp [ha])]
      exact filter_endpoint_nil e t fun x hx => h x (by simp [hx])

theorem replaceEndpoint_filter (r : PushSub) :
    ∀ db : List PushSub, (db.map PushSub.endpoint).Nodup →
      db.any (fun x => x.endpoint == r.endpoint) = true →
      (db.map fun x => if x.endpoint == r.endpoint then r else x).filter
          (fun x => x.endpoint == r.endpoint) = [r]
  | [], _, hany => by simp at hany
  | a :: t, hnd, hany => by
      rw [List.map_cons] at hnd
      have hx : a.endpoint ∉ t.map PushSub.endpoint :=
        (List.nodup_cons.mp hnd).1
      have hnt : (t.map PushSub.endpoint).Nodup := (List.nodup_cons.mp hnd).2
      cases ha : (a.endpoint == r.endpoint) with
      | true =>
          have hae : a.endpoint = r.endpoint := eq_of_beq ha
          have htail : ∀ x ∈ t, (x.endpoint == r.endpoint) = false := by
            intro x hxt
            cases hb : (x.endpoint == r.endpoint) with
            | false => rfl
            | true =>
                exact absurd (List.mem_map.mpr ⟨x, hxt,
                  (eq_of_beq hb).trans hae.symm⟩) hx
          have hmap :
              (t.map fun x => if x.endpoint == r.endpoint then r else x) =
                t := by
            have hpt : ∀ x ∈ t,
                (if x.endpoint == r.endpoint then r else x) = x := by
              intro x hxt
              rw [if_neg (by simp [htail x hxt])]
            calc (t.map fun x => if x.endpoint == r.endpoint then r else x)
                = t.map (fun x => x) := List.map_congr_left hpt
              _ = t := List.map_id t
          rw [List.map_cons, if_pos ha, hmap, List.filter_cons,
            if_pos (by simp), filter_endpoint_nil r.endpoint t htail]
      | false =>
          have hany' : t.any (fun x => x.endpoint == r.endpoint) = true := by
            rw [List.any_cons, ha] at hany
            simpa using hany
          rw [List.map_cons, if_neg (by simp [ha]), List.filter_cons,
            if_neg (by simp [ha])]
          exact replaceEndpoint_filter r t hnt hany'

theorem upsert_key (db : List PushSub) (r : PushSub)
    (hnd : (db.map PushSub.endpoint).Nodup) :
    (upsertPushSub db r).filter (fun x => x.endpoint == r.endpoint) =
      [r] := by
  unfold upsertPushSub
  split
  · exact replaceEndpoint_filter r db hnd (by assumption)
  · rename_i hany
    have hall : ∀ x ∈ db, (x.endpoint == r.endpoint) = false := by
      intro x hxd
      cases hb : (x.endpoint == r.endpoint) with
      | false => rfl
      | true =>
          exact absurd (List.any_eq_true.mpr ⟨x, hxd, hb⟩) hany
    rw [List.filter_append, filter_endpoint_nil r.endpoint db hall,
      List.filter_cons, if_pos (by simp)]
    rfl

theorem upsert_nodup (db : List PushSub) (r : PushSub)
    (hnd : (db.map PushSub.endpoint).Nodup) :
    ((upsertPushSub db r).map PushSub.endpoint).Nodup := by
  unfold upsertPushSub
  split
  · have hsame :
        ((db.map fun x => if x.endpoint == r.endpoint then r else x).map
            PushSub.endpoint) = db.map PushSub.endpoint := by
      rw [List.map_map]
      apply List.map_congr_left
      intro x _
      by_cases hb : (x.endpoint == r.endpoint) = true
      · simp only [Function.comp_apply, if_pos hb]
        exact (eq_of_beq hb).symm
      · simp only [Function.comp_apply, if_neg hb]
    rw [hsame]
    exact hnd
  · rename_i hany
    rw [List.map_append]
    rw [List.nodup_append]
    refine ⟨hnd, List.nodup_singleton _, ?_⟩
    intro a ha hb
    simp only [List.map_cons, List.map_nil, List.mem_singleton] at hb
    obtain ⟨x, hxd, hxe⟩ := List.mem_map.mp ha
    apply hany
    exact List.any_eq_true.mpr ⟨x, hxd, by simp [hxe, hb]⟩

/-- Claim C9: against a registry whose endpoints are unique (the schema's
`unique` constraint on `push_subscriptions.endpoint`), registering the
same endpoint twice — with different keys and even a different business —
leaves exactly one stored record for that endpoint, and it is the latest
registration. -/
theorem claim9_registry_upsert (db : List PushSub) (r1 r2 : PushSub)
    (hnd : (db.map PushSub.endpoint).Nodup)
    (he : r1.endpoint = r2.endpoint) :
    (upsertPushSub (upsertPushSub db r1) r2).filter
        (fun x => x.endpoint == r2.endpoint) = [r2] ∧
    (upsertPushSub (upsertPushSub db r1) r2).filter
        (fun x => x.endpoint == r1.endpoint) = [r2] := by
  have h1 := upsert_key (upsertPushSub db r1) r2 (upsert_nodup db r1 hnd)
  exact ⟨h1, by rw [he]; exact h1⟩

/-- Witness for C9: endpoint 60 registered for business 1 with one key
pair, then re-registered for business 2 with new keys, over a registry
already holding another device: exactly one endpoint-60 record remains,
the second registration. -/
theorem claim9_witness :
    (upsertPushSub (upsertPushSub [otherDeviceSub] firstRegistration)
        secondRegistration).filter
        (fun x => x.endpoint == secondRegistration.endpoint) =
      [secondRegistration] ∧
    (upsertPushSub (upsertPushSub [otherDeviceSub] firstRegistration)
        secondRegistration).filter
        (fun x => x.endpoint == firstRegistration.endpoint) =
      [secondRegistration] :=
  claim9_registry_upsert [otherDeviceSub] firstRegistration
    secondRegistration (by decide) rfl

/-- Claim C10: when push is unsupported, the service worker fails to
become ready, notification permission is not granted, or the browser
subscription call fails, `subscribeToPush` returns `false` and hands no
row to the registry; and any row it does write is derived from a
successful browser subscription (same endpoint and keys, the given
business id) with `true` returned. -/
theorem claim10_no_write_on_failure (env : PushEnv) (businessId : Nat) :
    (env.serviceWorkerInNav = false ∨ env.pushManagerInWindow = false ∨
        env.requestPermissionResult ≠ some PermissionState.granted ∨
        env.subscribeResult = none →
      subscribeToPush env businessId = (false, none)) ∧
    (∀ row : PushSub,
        (subscribeToPush env businessId).2 = some row →
        ∃ sub : BrowserSubscription,
          env.subscribeResult = some sub ∧
          subscribeToPush env businessId = (true, some row) ∧
          row = { business_id := businessId, endpoint := sub.endpoint,
                  p256dh := sub.p256dh, auth := sub.auth }) := by
  obtain ⟨sw, pm, rdy, perm, sub⟩ := env
  constructor
  · intro h
    cases sw <;> cases pm <;> cases rdy <;>
      rcases perm with _ | p <;> (try cases p) <;>
      rcases sub with _ | s <;>
      simp_all [subscribeToPush]
  · intro row h
    cases sw <;> cases pm <;> cases rdy <;>
      rcases perm with _ | p <;> (try cases p) <;>
      rcases sub with _ | s <;>
      simp_all [subscribeToPush]

/-- Witness for C10: a push-incapable environment yields `(false, none)`;
in a fully successful environment the written row carries the browser
subscription's endpoint and keys for the requesting business. -/
theorem claim10_witness :
    subscribeToPush envNoPush 3 = (false, none) ∧
    (∃ sub : BrowserSubscription,
        envAllOk.subscribeResult = some sub ∧
        subscribeToPush envAllOk 3 = (true, some expectedWrittenSub) ∧
        expectedWrittenSub =
          { business_id := 3, endpoint := sub.endpoint,
            p256dh := sub.p256dh, auth := sub.auth }) :=
  ⟨(claim10_no_write_on_failure envNoPush 3).1 (Or.inl rfl),
    (claim10_no_write_on_failure envAllOk 3).2 expectedWrittenSub rfl⟩

end OrderAhead
